import Mathlib

/-!
Verification of the tenant-isolated career data store declared in
`supabase_schema.sql`.

The schema is embedded shallowly: each table becomes a structure whose fields
are the table's columns (nullable columns become `Option`, `UUID` becomes an
opaque `Nat`, `TIMESTAMPTZ` an `Int` instant, `JSONB` its raw text), the store
is the six tables, and each SQL operation (RLS-guarded SELECT / INSERT /
UPDATE / DELETE, the two plpgsql helper functions, and the signup trigger)
becomes an explicit Lean function.  SQL three-valued logic is reflected where
it matters: a CHECK constraint passes on NULL, an RLS predicate
`auth.uid() = user_id` fails on NULL, and UNIQUE treats NULLs as distinct.
-/

/-- Opaque tenant identifier (`auth.users.id`, a UUID). -/
abbrev UserId := Nat

/-- Error kinds raised by write operations: a row-level-security policy
violation, a CHECK constraint violation, a UNIQUE constraint violation,
and a missing row. -/
inductive DbError where
  | RlsViolation
  | ValidationError
  | ConflictError
  | NotFound
deriving Repr, DecidableEq

/-- Row of `profiles` (schema lines 8-24). -/
structure Profile where
  id : Nat
  user_id : Option UserId
  name : Option String
  email : Option String
  github_username : Option String
  linkedin_url : Option String
  skills : Option String
  experience : Option String
  education : Option String
  career_goals : Option String
  resume_text : Option String
  github_data : Option String
  created_at : Option Int
  updated_at : Option Int
deriving Repr, DecidableEq

/-- Row of `applications` (schema lines 47-59); `job_title` and `company`
are NOT NULL. -/
structure Application where
  id : Nat
  user_id : Option UserId
  job_title : String
  company : String
  job_url : Option String
  status : Option String
  applied_at : Option Int
  updated_at : Option Int
  notes : Option String
  resume_version : Option String
  cover_letter : Option String
deriving Repr, DecidableEq

/-- Row of `learning_progress` (schema lines 81-92); `milestone_id` is
NOT NULL. -/
structure LearningProgress where
  id : Nat
  user_id : Option UserId
  roadmap_id : Option String
  milestone_id : String
  completed : Option Bool
  time_spent_minutes : Option Int
  notes : Option String
  completed_at : Option Int
  updated_at : Option Int
deriving Repr, DecidableEq

/-- Row of `wellness_logs` (schema lines 114-123). -/
structure WellnessLog where
  id : Nat
  user_id : Option UserId
  mood : Option String
  energy_level : Option Int
  sleep_hours : Option Rat
  stress_level : Option Int
  notes : Option String
  logged_at : Option Int
deriving Repr, DecidableEq

/-- Row of `saved_jobs` (schema lines 141-153); `job_title` and `company`
are NOT NULL. -/
structure SavedJob where
  id : Nat
  user_id : Option UserId
  job_title : String
  company : String
  location : Option String
  job_url : Option String
  salary : Option String
  skills_required : Option String
  match_score : Option Rat
  source_platform : Option String
  saved_at : Option Int
deriving Repr, DecidableEq

/-- Row of `interview_sessions` (schema lines 175-187). -/
structure InterviewSession where
  id : Nat
  user_id : Option UserId
  job_title : Option String
  company : Option String
  interview_type : Option String
  questions : Option String
  answers : Option String
  scores : Option String
  overall_score : Option Rat
  feedback : Option String
  conducted_at : Option Int
deriving Repr, DecidableEq

/-- The whole store: the six tables of the schema. -/
structure Store where
  profiles : List Profile
  applications : List Application
  learning_progress : List LearningProgress
  wellness_logs : List WellnessLog
  saved_jobs : List SavedJob
  interview_sessions : List InterviewSession
deriving Repr, DecidableEq

/-- The empty store. -/
def Store.empty : Store :=
  { profiles := [], applications := [], learning_progress := [],
    wellness_logs := [], saved_jobs := [], interview_sessions := [] }

instance {ε α : Type} [DecidableEq ε] [DecidableEq α] :
    DecidableEq (Except ε α) := fun a b =>
  match a, b with
  | .ok x, .ok y =>
      if h : x = y then isTrue (by rw [h])
      else isFalse (by intro hc; cases hc; exact h rfl)
  | .error x, .error y =>
      if h : x = y then isTrue (by rw [h])
      else isFalse (by intro hc; cases hc; exact h rfl)
  | .ok _, .error _ => isFalse (fun hc => Except.noConfusion hc)
  | .error _, .ok _ => isFalse (fun hc => Except.noConfusion hc)

/-! ## CHECK constraints

A SQL CHECK constraint is satisfied when its predicate is TRUE or NULL, so
every check below accepts `none`. -/

/-- The constraint `CHECK (status IN
('applied','viewed','interview','offer','rejected'))` on
`applications.status` (line 53). -/
def application_status_ok : Option String → Bool
  | none => true
  | some st =>
      st == "applied" || st == "viewed" || st == "interview" ||
      st == "offer" || st == "rejected"

/-- The constraint `CHECK (mood IN
('great','good','neutral','low','struggling'))` on `wellness_logs.mood`
(line 117). -/
def mood_ok : Option String → Bool
  | none => true
  | some m =>
      m == "great" || m == "good" || m == "neutral" || m == "low" ||
      m == "struggling"

/-- The constraint `CHECK (x BETWEEN 1 AND 10)` on
`wellness_logs.energy_level` and `wellness_logs.stress_level`
(lines 118, 120). -/
def level_ok : Option Int → Bool
  | none => true
  | some v => decide (1 ≤ v) && decide (v ≤ 10)

/-- The constraint `CHECK (interview_type IN
('behavioral','technical','hr','case'))` on
`interview_sessions.interview_type` (line 180). -/
def interview_type_ok : Option String → Bool
  | none => true
  | some t => t == "behavioral" || t == "technical" || t == "hr" || t == "case"

/-! ## UNIQUE constraints

SQL UNIQUE regards NULLs as distinct, so two rows conflict only when both
key values are non-NULL and equal. -/

/-- Two `profiles` rows collide on `UNIQUE(user_id)` (line 23). -/
def profile_conflict (r1 r2 : Profile) : Bool :=
  r1.user_id.isSome && r2.user_id.isSome && r1.user_id == r2.user_id

/-- Two `learning_progress` rows collide on `UNIQUE(user_id, milestone_id)`
(line 91). -/
def lp_conflict (r1 r2 : LearningProgress) : Bool :=
  r1.user_id.isSome && r2.user_id.isSome && r1.user_id == r2.user_id &&
    r1.milestone_id == r2.milestone_id

/-- Whether some pair of rows of the list collides under `c`. -/
def hasDupBy {α : Type} (c : α → α → Bool) : List α → Bool
  | [] => false
  | r :: t => t.any (c r) || hasDupBy c t

/-! ## Row-level security: SELECT

Each table's SELECT policy is `USING (auth.uid() = user_id)`; a row with
NULL `user_id` is invisible (the predicate is NULL, treated as false). -/

/-- Policy "Users can view own profile" (lines 31-32). -/
def select_profiles (auth_uid : UserId) (s : Store) : List Profile :=
  s.profiles.filter (fun r => r.user_id == some auth_uid)

/-- Policy "Users can view own applications" (lines 65-66). -/
def select_applications (auth_uid : UserId) (s : Store) : List Application :=
  s.applications.filter (fun r => r.user_id == some auth_uid)

/-- Policy "Users can view own progress" (lines 98-99). -/
def select_learning_progress (auth_uid : UserId) (s : Store) :
    List LearningProgress :=
  s.learning_progress.filter (fun r => r.user_id == some auth_uid)

/-- Policy "Users can view own wellness logs" (lines 129-130). -/
def select_wellness_logs (auth_uid : UserId) (s : Store) : List WellnessLog :=
  s.wellness_logs.filter (fun r => r.user_id == some auth_uid)

/-- Policy "Users can view own saved jobs" (lines 159-160). -/
def select_saved_jobs (auth_uid : UserId) (s : Store) : List SavedJob :=
  s.saved_jobs.filter (fun r => r.user_id == some auth_uid)

/-- Policy "Users can view own interviews" (lines 193-194). -/
def select_interview_sessions (auth_uid : UserId) (s : Store) :
    List InterviewSession :=
  s.interview_sessions.filter (fun r => r.user_id == some auth_uid)

/-- Point read of an application by primary key, under RLS: a row that does
not exist and a row owned by another tenant both yield `none` (NotFound). -/
def get_application (auth_uid : UserId) (s : Store) (i : Nat) :
    Option Application :=
  (select_applications auth_uid s).find? (fun r => r.id == i)

/-! ## Row-level security: INSERT

Each INSERT policy is `WITH CHECK (auth.uid() = user_id)`; a NULL
`user_id` makes the predicate NULL, which rejects the row.  After the
policy, CHECK constraints and UNIQUE constraints are enforced. -/

/-- INSERT into `profiles` under policy "Users can insert own profile"
(lines 39-40) and `UNIQUE(user_id)` (line 23). -/
def insert_profile (auth_uid : UserId) (r : Profile) (s : Store) :
    Except DbError Store :=
  if !(r.user_id == some auth_uid) then .error .RlsViolation
  else if s.profiles.any (profile_conflict r) then .error .ConflictError
  else .ok { s with profiles := r :: s.profiles }

/-- INSERT into `applications` under policy "Users can insert own
applications" (lines 69-70) and the `status` CHECK (line 53). -/
def insert_application (auth_uid : UserId) (r : Application) (s : Store) :
    Except DbError Store :=
  if !(r.user_id == some auth_uid) then .error .RlsViolation
  else if !(application_status_ok r.status) then .error .ValidationError
  else .ok { s with applications := r :: s.applications }

/-- INSERT into `learning_progress` under policy "Users can insert own
progress" (lines 102-103) and `UNIQUE(user_id, milestone_id)` (line 91). -/
def insert_learning_progress (auth_uid : UserId) (r : LearningProgress)
    (s : Store) : Except DbError Store :=
  if !(r.user_id == some auth_uid) then .error .RlsViolation
  else if s.learning_progress.any (lp_conflict r) then .error .ConflictError
  else .ok { s with learning_progress := r :: s.learning_progress }

/-- INSERT into `wellness_logs` under policy "Users can insert own wellness
logs" (lines 133-134) and the `mood` / `energy_level` / `stress_level`
CHECKs (lines 117-120). -/
def insert_wellness_log (auth_uid : UserId) (r : WellnessLog) (s : Store) :
    Except DbError Store :=
  if !(r.user_id == some auth_uid) then .error .RlsViolation
  else if !(mood_ok r.mood && level_ok r.energy_level &&
            level_ok r.stress_level) then .error .ValidationError
  else .ok { s with wellness_logs := r :: s.wellness_logs }

/-- INSERT into `saved_jobs` under policy "Users can insert own saved jobs"
(lines 163-164); the table has no CHECK or UNIQUE constraint. -/
def insert_saved_job (auth_uid : UserId) (r : SavedJob) (s : Store) :
    Except DbError Store :=
  if !(r.user_id == some auth_uid) then .error .RlsViolation
  else .ok { s with saved_jobs := r :: s.saved_jobs }

/-- INSERT into `interview_sessions` under policy "Users can insert own
interviews" (lines 197-198) and the `interview_type` CHECK (line 180). -/
def insert_interview_session (auth_uid : UserId) (r : InterviewSession)
    (s : Store) : Except DbError Store :=
  if !(r.user_id == some auth_uid) then .error .RlsViolation
  else if !(interview_type_ok r.interview_type) then .error .ValidationError
  else .ok { s with interview_sessions := r :: s.interview_sessions }

/-! ## Row-level security: UPDATE and DELETE

UPDATE policies exist for `profiles`, `applications` and
`learning_progress`, each `USING (auth.uid() = user_id)`: only the caller's
own rows are targeted.  A policy with no explicit WITH CHECK reuses its
USING clause for the updated row, so an update may not move a row to
another owner.  `saved_jobs` has the only DELETE policy. -/

/-- UPDATE on `applications` (policy lines 73-74): apply `f` to the caller's
rows matching `sel`; the updated rows must still satisfy the policy and the
`status` CHECK. -/
def update_applications (auth_uid : UserId) (sel : Application → Bool)
    (f : Application → Application) (s : Store) : Except DbError Store :=
  let targeted := fun r : Application => r.user_id == some auth_uid && sel r
  if !(s.applications.all fun r =>
        !(targeted r) || ((f r).user_id == some auth_uid)) then
    .error .RlsViolation
  else if !(s.applications.all fun r =>
        !(targeted r) || application_status_ok (f r).status) then
    .error .ValidationError
  else .ok { s with applications :=
    s.applications.map (fun r => if targeted r then f r else r) }

/-- UPDATE on `learning_progress` (policy lines 106-107): apply `f` to the
caller's rows matching `sel`; updated rows must still satisfy the policy,
and `UNIQUE(user_id, milestone_id)` is re-checked on the whole table. -/
def update_learning_progress (auth_uid : UserId)
    (sel : LearningProgress → Bool) (f : LearningProgress → LearningProgress)
    (s : Store) : Except DbError Store :=
  let targeted := fun r : LearningProgress =>
    r.user_id == some auth_uid && sel r
  let newRows := s.learning_progress.map (fun r => if targeted r then f r else r)
  if !(s.learning_progress.all fun r =>
        !(targeted r) || ((f r).user_id == some auth_uid)) then
    .error .RlsViolation
  else if hasDupBy lp_conflict newRows then .error .ConflictError
  else .ok { s with learning_progress := newRows }

/-- UPDATE on `profiles` (policy lines 35-36): apply `f` to the caller's
rows matching `sel`; updated rows must still satisfy the policy, and
`UNIQUE(user_id)` is re-checked on the whole table. -/
def update_profiles (auth_uid : UserId) (sel : Profile → Bool)
    (f : Profile → Profile) (s : Store) : Except DbError Store :=
  let targeted := fun r : Profile => r.user_id == some auth_uid && sel r
  let newRows := s.profiles.map (fun r => if targeted r then f r else r)
  if !(s.profiles.all fun r =>
        !(targeted r) || ((f r).user_id == some auth_uid)) then
    .error .RlsViolation
  else if hasDupBy profile_conflict newRows then .error .ConflictError
  else .ok { s with profiles := newRows }

/-- DELETE on `saved_jobs` (policy lines 167-168): removes exactly the
caller's rows matching `sel`. -/
def delete_saved_jobs (auth_uid : UserId) (sel : SavedJob → Bool)
    (s : Store) : Store :=
  { s with saved_jobs :=
      s.saved_jobs.filter (fun r => !(r.user_id == some auth_uid && sel r)) }

/-! ## Cascade delete

Every table's `user_id` is declared `REFERENCES auth.users(id) ON DELETE
CASCADE`, so deleting a tenant removes every row whose `user_id` equals the
deleted id across all six tables. -/

/-- Deleting the tenant `t` from `auth.users`: cascade removal of all rows
referencing `t` in all six tables. -/
def delete_tenant (t : UserId) (s : Store) : Store :=
  { profiles := s.profiles.filter (fun r => !(r.user_id == some t)),
    applications := s.applications.filter (fun r => !(r.user_id == some t)),
    learning_progress :=
      s.learning_progress.filter (fun r => !(r.user_id == some t)),
    wellness_logs := s.wellness_logs.filter (fun r => !(r.user_id == some t)),
    saved_jobs := s.saved_jobs.filter (fun r => !(r.user_id == some t)),
    interview_sessions :=
      s.interview_sessions.filter (fun r => !(r.user_id == some t)) }

/-! ## Lifecycle automation: the signup trigger -/

/-- The `NEW` row of an `AFTER INSERT ON auth.users` trigger invocation:
the tenant id, email, and the `name` key of `raw_user_meta_data`. -/
structure AuthUser where
  id : UserId
  email : Option String
  raw_user_meta_data_name : Option String
deriving Repr, DecidableEq

/-- The `profiles` row inserted by `handle_new_user` (lines 279-284):
`user_id = new.id`, `email = new.email`,
`name = new.raw_user_meta_data ->> 'name'`, and the column defaults of
lines 9-22 (`fresh` stands for `gen_random_uuid()`, `now` for `NOW()`). -/
def handle_new_user_row (u : AuthUser) (fresh : Nat) (now : Int) : Profile :=
  { id := fresh, user_id := some u.id, name := u.raw_user_meta_data_name,
    email := u.email, github_username := none, linkedin_url := none,
    skills := some "[]", experience := some "[]", education := some "[]",
    career_goals := some "[]", resume_text := none, github_data := none,
    created_at := some now, updated_at := some now }

/-- The trigger function `public.handle_new_user` (lines 273-287): fired
once per tenant
creation (trigger `on_auth_user_created`, lines 290-293); inserts the one
`profiles` row above.  The function is SECURITY DEFINER, so RLS does not
apply, but `UNIQUE(user_id)` still does; a constraint error aborts the
surrounding tenant-creation transaction. -/
def handle_new_user (u : AuthUser) (fresh : Nat) (now : Int) (s : Store) :
    Except DbError Store :=
  let r := handle_new_user_row u fresh now
  if s.profiles.any (profile_conflict r) then .error .ConflictError
  else .ok { s with profiles := r :: s.profiles }

/-! ## Analytics functions -/

/-- Result row of `get_application_stats` (lines 220-225). -/
structure FunnelStats where
  total : Nat
  applied : Nat
  interviews : Nat
  offers : Nat
  rejected : Nat
deriving Repr, DecidableEq

/-- The function `get_application_stats(p_user_id)` (lines 219-238):
counts the rows of
`applications` with `user_id = p_user_id`, in total and filtered by each of
the four statuses `applied`, `interview`, `offer`, `rejected` (a NULL
status matches no `status = '...'` filter). -/
def get_application_stats (p_user_id : UserId) (s : Store) : FunnelStats :=
  let rows := s.applications.filter (fun r => r.user_id == some p_user_id)
  { total := rows.length,
    applied := (rows.filter (fun r => r.status == some "applied")).length,
    interviews := (rows.filter (fun r => r.status == some "interview")).length,
    offers := (rows.filter (fun r => r.status == some "offer")).length,
    rejected := (rows.filter (fun r => r.status == some "rejected")).length }

/-- The cast `updated_at::DATE`: truncation of a TIMESTAMPTZ instant
(seconds) to a
calendar day, in the single fixed session timezone. -/
def dateTrunc (ts : Int) : Int := Int.fdiv ts 86400

/-- The EXISTS subquery of `get_learning_streak` (lines 250-255): whether
the tenant has a `learning_progress` row with `completed = TRUE` whose
`updated_at::DATE` equals `check_date` (a NULL `updated_at` or NULL
`completed` matches nothing). -/
def has_activity (rows : List LearningProgress) (p_user_id : UserId)
    (check_date : Int) : Bool :=
  rows.any (fun r =>
    r.user_id == some p_user_id && r.completed == some true &&
      (match r.updated_at with
       | none => false
       | some ts => dateTrunc ts == check_date))

/-- One row qualifies for day `d` and some day at or before `d`: the
termination measure of the streak loop. -/
def qualifiesLe (p_user_id : UserId) (d : Int) (r : LearningProgress) : Bool :=
  r.user_id == some p_user_id && r.completed == some true &&
    (match r.updated_at with
     | none => false
     | some ts => decide (dateTrunc ts ≤ d))

def length_filter_mono {α : Type} (l : List α) (p q : α → Bool)
    (h : ∀ x, q x = true → p x = true) :
    (l.filter q).length ≤ (l.filter p).length := by
  induction l with
  | nil => simp
  | cons a t ih =>
    by_cases hq : q a = true
    · simp [List.filter_cons, hq, h a hq]; omega
    · simp only [Bool.not_eq_true] at hq
      by_cases hp : p a = true
      · simp [List.filter_cons, hq, hp]; omega
      · simp only [Bool.not_eq_true] at hp
        simp [List.filter_cons, hq, hp, ih]

def length_filter_lt_of_mem {α : Type} (l : List α) (p q : α → Bool)
    (hpq : ∀ x, q x = true → p x = true) (x : α) (hx : x ∈ l)
    (hpx : p x = true) (hqx : q x = false) :
    (l.filter q).length < (l.filter p).length := by
  induction l with
  | nil => cases hx
  | cons a t ih =>
    rcases List.mem_cons.mp hx with rfl | hxt
    · have hqa : q x = false := hqx
      simp [List.filter_cons, hpx, hqa]
      exact Nat.lt_succ_of_le (length_filter_mono t p q hpq)
    · by_cases hq : q a = true
      · simp [List.filter_cons, hq, hpq a hq]
        exact ih hxt
      · simp only [Bool.not_eq_true] at hq
        by_cases hp : p a = true
        · simp [List.filter_cons, hq, hp]
          exact Nat.lt_succ_of_lt (ih hxt)
        · simp only [Bool.not_eq_true] at hp
          simp [List.filter_cons, hq, hp]
          exact ih hxt

def has_activity_decrease (rows : List LearningProgress)
    (p_user_id : UserId) (d : Int)
    (h : has_activity rows p_user_id d = true) :
    (rows.filter (qualifiesLe p_user_id (d - 1))).length <
      (rows.filter (qualifiesLe p_user_id d)).length := by
  rcases List.any_eq_true.mp h with ⟨r, hr, hq⟩
  apply length_filter_lt_of_mem rows (qualifiesLe p_user_id d)
    (qualifiesLe p_user_id (d - 1)) _ r hr
  · simp only [qualifiesLe]
    simp only [Bool.and_eq_true] at hq ⊢
    refine ⟨hq.1, ?_⟩
    rcases hq with ⟨-, hts⟩
    match hu : r.updated_at with
    | none => rw [hu] at hts; simp at hts
    | some ts =>
        rw [hu] at hts
        simp only [beq_iff_eq] at hts
        simp [hts]
  · simp only [qualifiesLe]
    simp only [Bool.and_eq_true] at hq
    rcases hq with ⟨-, hts⟩
    match hu : r.updated_at with
    | none => rw [hu] at hts; simp at hts
    | some ts =>
        rw [hu] at hts
        simp only [beq_iff_eq] at hts
        simp [hts]
  · intro x hx
    simp only [qualifiesLe, Bool.and_eq_true] at hx ⊢
    refine ⟨hx.1, ?_⟩
    rcases hx with ⟨-, hts⟩
    match hu : x.updated_at with
    | none => rw [hu] at hts; simp at hts
    | some ts =>
        rw [hu] at hts
        simp only [decide_eq_true_eq] at hts
        simp only [decide_eq_true_eq]
        omega

/-- The LOOP of `get_learning_streak` (lines 249-261), started at
`check_date`: while the day has qualifying activity, count it and step one
day back.  Terminates because each counted day consumes at least one of the
tenant's qualifying rows with date at or before the current day. -/
def streak_loop (rows : List LearningProgress) (p_user_id : UserId)
    (check_date : Int) : Nat :=
  if h : has_activity rows p_user_id check_date = true then
    streak_loop rows p_user_id (check_date - 1) + 1
  else 0
termination_by (rows.filter (qualifiesLe p_user_id check_date)).length
decreasing_by exact has_activity_decrease rows p_user_id check_date h

/-- The function `get_learning_streak(p_user_id)` (lines 242-265): the
backward
day-by-day walk starting at `CURRENT_DATE` (the parameter `today`). -/
def get_learning_streak (p_user_id : UserId) (today : Int) (s : Store) :
    Nat :=
  streak_loop s.learning_progress p_user_id today

/-! ## Derived notions used in statements -/

/-- Number of the tenant's application rows with status `viewed` (the
status reported by no bucket of `get_application_stats`). -/
def viewed_count (p_user_id : UserId) (s : Store) : Nat :=
  ((select_applications p_user_id s).filter
    (fun r => r.status == some "viewed")).length

/-- Number of the tenant's application rows with NULL status. -/
def null_status_count (p_user_id : UserId) (s : Store) : Nat :=
  ((select_applications p_user_id s).filter (fun r => r.status == none)).length

/-- Number of `profiles` rows owned by tenant `t`. -/
def profile_count (t : UserId) (s : Store) : Nat :=
  (s.profiles.filter (fun r => r.user_id == some t)).length

/-- The constraint `UNIQUE(user_id)` holds of a `profiles` table. -/
def profile_unique (l : List Profile) : Prop :=
  hasDupBy profile_conflict l = false

/-- The constraint `UNIQUE(user_id, milestone_id)` holds of a
`learning_progress` table. -/
def lp_unique (l : List LearningProgress) : Prop :=
  hasDupBy lp_conflict l = false

/-- Number of the tenant's qualifying (`completed = TRUE`, dated)
learning-progress rows: the bound on the streak walk. -/
def qualifying_count (p_user_id : UserId) (s : Store) : Nat :=
  (s.learning_progress.filter (fun r =>
    r.user_id == some p_user_id && r.completed == some true &&
      r.updated_at.isSome)).length

/-! ## Concrete sample rows (used to instantiate the theorems) -/

def sampleProfile (i : Nat) (u : UserId) : Profile :=
  { id := i, user_id := some u, name := some "Ada",
    email := some "ada@example.com", github_username := none,
    linkedin_url := none, skills := some "[]", experience := some "[]",
    education := some "[]", career_goals := some "[]", resume_text := none,
    github_data := none, created_at := some 0, updated_at := some 0 }

def sampleApplication (i : Nat) (u : UserId) (st : Option String) :
    Application :=
  { id := i, user_id := some u, job_title := "Engineer", company := "Acme",
    job_url := none, status := st, applied_at := some 0, updated_at := some 0,
    notes := none, resume_version := none, cover_letter := none }

def sampleLearningProgress (i : Nat) (u : UserId) (m : String) (day : Int) :
    LearningProgress :=
  { id := i, user_id := some u, roadmap_id := none, milestone_id := m,
    completed := some true, time_spent_minutes := some 30, notes := none,
    completed_at := none, updated_at := some (day * 86400) }

def sampleWellnessLog (i : Nat) (u : UserId) (mood : Option String)
    (energy stress : Option Int) : WellnessLog :=
  { id := i, user_id := some u, mood := mood, energy_level := energy,
    sleep_hours := none, stress_level := stress, notes := none,
    logged_at := some 0 }

def sampleSavedJob (i : Nat) (u : UserId) : SavedJob :=
  { id := i, user_id := some u, job_title := "Engineer", company := "Acme",
    location := none, job_url := none, salary := none,
    skills_required := some "[]", match_score := none,
    source_platform := none, saved_at := some 0 }

def sampleInterviewSession (i : Nat) (u : UserId) (ty : Option String) :
    InterviewSession :=
  { id := i, user_id := some u, job_title := none, company := none,
    interview_type := ty, questions := some "[]", answers := some "[]",
    scores := some "[]", overall_score := none, feedback := none,
    conducted_at := some 0 }

def sampleAuthUser (u : UserId) : AuthUser :=
  { id := u, email := some "ada@example.com",
    raw_user_meta_data_name := some "Ada" }

/-! ## Concrete stores -/

/-- Store reached by tenant 1 inserting one application with NULL status. -/
def c2Store : Store :=
  { Store.empty with applications := [sampleApplication 20 1 none] }

/-- A schema-valid store for tenant 1 whose application statuses are
`applied`, `viewed` and NULL. -/
def c2ValidStore : Store :=
  { Store.empty with applications :=
      [sampleApplication 21 1 (some "applied"),
       sampleApplication 22 1 (some "viewed"),
       sampleApplication 23 1 none] }

/-- Tenant 1 completed milestones on days 10, 9 and 8. -/
def c3Rows : List LearningProgress :=
  [sampleLearningProgress 31 1 "m1" 10, sampleLearningProgress 32 1 "m2" 9,
   sampleLearningProgress 33 1 "m3" 8]

def c3Store : Store := { Store.empty with learning_progress := c3Rows }

/-- A store holding one row of tenant 1 and one of tenant 2 in every
table. -/
def twoTenantStore : Store :=
  { profiles := [sampleProfile 70 1, sampleProfile 71 2],
    applications := [sampleApplication 72 1 (some "applied"),
      sampleApplication 73 2 (some "offer")],
    learning_progress := [sampleLearningProgress 74 1 "m1" 5,
      sampleLearningProgress 75 2 "m1" 6],
    wellness_logs := [sampleWellnessLog 76 1 (some "good") (some 5) (some 5),
      sampleWellnessLog 77 2 none none none],
    saved_jobs := [sampleSavedJob 78 1, sampleSavedJob 79 2],
    interview_sessions := [sampleInterviewSession 80 1 (some "technical"),
      sampleInterviewSession 81 2 none] }

/-! ## Unfolding and inversion lemmas -/

theorem streak_loop_eq (rows : List LearningProgress) (p : UserId) (d : Int) :
    streak_loop rows p d =
      if has_activity rows p d then streak_loop rows p (d - 1) + 1 else 0 := by
  rw [streak_loop]
  by_cases h : has_activity rows p d = true <;> simp [h]

theorem insert_profile_ok_iff (u : UserId) (r : Profile) (s s' : Store) :
    insert_profile u r s = .ok s' ↔
      (r.user_id = some u ∧ s.profiles.any (profile_conflict r) = false ∧
        s' = { s with profiles := r :: s.profiles }) := by
  unfold insert_profile
  cases h1 : r.user_id == some u <;>
    cases h2 : s.profiles.any (profile_conflict r) <;>
      simp_all [beq_iff_eq] <;> exact eq_comm

theorem insert_application_ok_iff (u : UserId) (r : Application)
    (s s' : Store) :
    insert_application u r s = .ok s' ↔
      (r.user_id = some u ∧ application_status_ok r.status = true ∧
        s' = { s with applications := r :: s.applications }) := by
  unfold insert_application
  cases h1 : r.user_id == some u <;>
    cases h2 : application_status_ok r.status <;>
      simp_all [beq_iff_eq] <;> exact eq_comm

theorem insert_learning_progress_ok_iff (u : UserId) (r : LearningProgress)
    (s s' : Store) :
    insert_learning_progress u r s = .ok s' ↔
      (r.user_id = some u ∧
        s.learning_progress.any (lp_conflict r) = false ∧
        s' = { s with learning_progress := r :: s.learning_progress }) := by
  unfold insert_learning_progress
  cases h1 : r.user_id == some u <;>
    cases h2 : s.learning_progress.any (lp_conflict r) <;>
      simp_all [beq_iff_eq] <;> exact eq_comm

theorem insert_wellness_log_ok_iff (u : UserId) (r : WellnessLog)
    (s s' : Store) :
    insert_wellness_log u r s = .ok s' ↔
      (r.user_id = some u ∧ mood_ok r.mood = true ∧
        level_ok r.energy_level = true ∧ level_ok r.stress_level = true ∧
        s' = { s with wellness_logs := r :: s.wellness_logs }) := by
  unfold insert_wellness_log
  cases h1 : r.user_id == some u <;>
    cases h2 : mood_ok r.mood <;>
      cases h3 : level_ok r.energy_level <;>
        cases h4 : level_ok r.stress_level <;>
          simp_all [beq_iff_eq] <;> exact eq_comm

theorem insert_saved_job_ok_iff (u : UserId) (r : SavedJob) (s s' : Store) :
    insert_saved_job u r s = .ok s' ↔
      (r.user_id = some u ∧
        s' = { s with saved_jobs := r :: s.saved_jobs }) := by
  unfold insert_saved_job
  cases h1 : r.user_id == some u <;>
    simp_all [beq_iff_eq] <;> exact eq_comm

theorem insert_interview_session_ok_iff (u : UserId) (r : InterviewSession)
    (s s' : Store) :
    insert_interview_session u r s = .ok s' ↔
      (r.user_id = some u ∧ interview_type_ok r.interview_type = true ∧
        s' = { s with interview_sessions := r :: s.interview_sessions }) := by
  unfold insert_interview_session
  cases h1 : r.user_id == some u <;>
    cases h2 : interview_type_ok r.interview_type <;>
      simp_all [beq_iff_eq] <;> exact eq_comm

theorem handle_new_user_ok_iff (u : AuthUser) (fresh : Nat) (now : Int)
    (s s' : Store) :
    handle_new_user u fresh now s = .ok s' ↔
      (s.profiles.any
          (profile_conflict (handle_new_user_row u fresh now)) = false ∧
        s' = { s with
          profiles := handle_new_user_row u fresh now :: s.profiles }) := by
  unfold handle_new_user
  by_cases h1 : s.profiles.any
      (profile_conflict (handle_new_user_row u fresh now)) = true
  · simp [h1]
  · simp only [Bool.not_eq_true] at h1
    simp only [h1, Bool.false_eq_true, if_false, Except.ok.injEq]
    constructor
    · rintro rfl; exact ⟨trivial, rfl⟩
    · rintro ⟨-, rfl⟩; rfl

/-! ## List lemmas -/

theorem any_filter_imp {α : Type} (l : List α) (p q : α → Bool)
    (h : (l.filter p).any q = true) : l.any q = true := by
  rcases List.any_eq_true.mp h with ⟨x, hx, hq⟩
  exact List.any_eq_true.mpr ⟨x, (List.mem_filter.mp hx).1, hq⟩

theorem hasDupBy_filter {α : Type} (c : α → α → Bool) (p : α → Bool)
    (l : List α) (h : hasDupBy c l = false) :
    hasDupBy c (l.filter p) = false := by
  induction l with
  | nil => simp [List.filter_nil, hasDupBy]
  | cons a t ih =>
    rw [hasDupBy, Bool.or_eq_false_iff] at h
    rw [List.filter_cons]
    by_cases hp : p a = true
    · rw [if_pos hp, hasDupBy, Bool.or_eq_false_iff]
      refine ⟨?_, ih h.2⟩
      cases hq : (t.filter p).any (c a)
      · rfl
      · rw [any_filter_imp t p (c a) hq] at h
        cases h.1
    · simp only [Bool.not_eq_true] at hp
      simp only [hp, Bool.false_eq_true, if_false]
      exact ih h.2

theorem mem_map_untarget {α : Type} (l : List α) (tgt : α → Bool) (f : α → α)
    (r : α) (hr : r ∈ l) (hnt : tgt r = false) :
    r ∈ l.map (fun x => if tgt x then f x else x) := by
  have hfix : (fun x => if tgt x then f x else x) r = r := by simp [hnt]
  rw [← hfix]
  exact List.mem_map_of_mem _ hr

theorem mem_map_untarget_rev {α : Type} (l : List α) (tgt : α → Bool)
    (f : α → α) (own : α → Bool)
    (hall : ∀ x ∈ l, tgt x = true → own (f x) = true)
    (r : α) (hr : r ∈ l.map (fun x => if tgt x then f x else x))
    (hro : own r = false) : r ∈ l := by
  rcases List.mem_map.mp hr with ⟨x, hx, hfx⟩
  by_cases ht : tgt x = true
  · rw [if_pos ht] at hfx
    have hown := hall x hx ht
    rw [hfx, hro] at hown
    cases hown
  · simp only [Bool.not_eq_true] at ht
    simp only [ht, Bool.false_eq_true, if_false] at hfx
    rwa [← hfx]

/-! ## UPDATE inversion lemmas -/

theorem update_applications_ok (u : UserId) (sel : Application → Bool)
    (f : Application → Application) (s s' : Store)
    (h : update_applications u sel f s = .ok s') :
    (∀ r ∈ s.applications,
        (r.user_id == some u && sel r) = true → (f r).user_id = some u) ∧
    s'.applications = s.applications.map
      (fun r => if r.user_id == some u && sel r then f r else r) := by
  unfold update_applications at h
  by_cases h1 : s.applications.all (fun r =>
      !(r.user_id == some u && sel r) || ((f r).user_id == some u)) = true
  · by_cases h2 : s.applications.all (fun r =>
        !(r.user_id == some u && sel r) ||
          application_status_ok (f r).status) = true
    · simp only [h1, h2, Bool.not_true, Bool.false_eq_true, if_false,
        Except.ok.injEq] at h
      subst h
      refine ⟨?_, rfl⟩
      intro r hr htgt
      have := List.all_eq_true.mp h1 r hr
      rw [htgt] at this
      simpa using this
    · simp only [Bool.not_eq_true] at h2
      simp only [h1, h2, Bool.not_true, Bool.not_false, Bool.false_eq_true,
        if_false, if_true] at h
      cases h
  · simp only [Bool.not_eq_true] at h1
    simp only [h1, Bool.not_false, if_true] at h
    cases h

theorem update_learning_progress_ok (u : UserId)
    (sel : LearningProgress → Bool) (f : LearningProgress → LearningProgress)
    (s s' : Store) (h : update_learning_progress u sel f s = .ok s') :
    (∀ r ∈ s.learning_progress,
        (r.user_id == some u && sel r) = true → (f r).user_id = some u) ∧
    s'.learning_progress = s.learning_progress.map
      (fun r => if r.user_id == some u && sel r then f r else r) ∧
    hasDupBy lp_conflict s'.learning_progress = false := by
  unfold update_learning_progress at h
  by_cases h1 : s.learning_progress.all (fun r =>
      !(r.user_id == some u && sel r) || ((f r).user_id == some u)) = true
  · by_cases h2 : hasDupBy lp_conflict (s.learning_progress.map
        (fun r => if r.user_id == some u && sel r then f r else r)) = true
    · simp only [h1, h2, Bool.not_true, Bool.false_eq_true, if_false,
        if_true] at h
      cases h
    · simp only [Bool.not_eq_true] at h2
      simp only [h1, h2, Bool.not_true, Bool.false_eq_true, if_false,
        Except.ok.injEq] at h
      subst h
      refine ⟨?_, rfl, h2⟩
      intro r hr htgt
      have := List.all_eq_true.mp h1 r hr
      rw [htgt] at this
      simpa using this
  · simp only [Bool.not_eq_true] at h1
    simp only [h1, Bool.not_false, if_true] at h
    cases h

theorem update_profiles_ok (u : UserId) (sel : Profile → Bool)
    (f : Profile → Profile) (s s' : Store)
    (h : update_profiles u sel f s = .ok s') :
    (∀ r ∈ s.profiles,
        (r.user_id == some u && sel r) = true → (f r).user_id = some u) ∧
    s'.profiles = s.profiles.map
      (fun r => if r.user_id == some u && sel r then f r else r) ∧
    hasDupBy profile_conflict s'.profiles = false := by
  unfold update_profiles at h
  by_cases h1 : s.profiles.all (fun r =>
      !(r.user_id == some u && sel r) || ((f r).user_id == some u)) = true
  · by_cases h2 : hasDupBy profile_conflict (s.profiles.map
        (fun r => if r.user_id == some u && sel r then f r else r)) = true
    · simp only [h1, h2, Bool.not_true, Bool.false_eq_true, if_false,
        if_true] at h
      cases h
    · simp only [Bool.not_eq_true] at h2
      simp only [h1, h2, Bool.not_true, Bool.false_eq_true, if_false,
        Except.ok.injEq] at h
      subst h
      refine ⟨?_, rfl, h2⟩
      intro r hr htgt
      have := List.all_eq_true.mp h1 r hr
      rw [htgt] at this
      simpa using this
  · simp only [Bool.not_eq_true] at h1
    simp only [h1, Bool.not_false, if_true] at h
    cases h

/-! ## C6: range and enumeration rejection on wellness logs -/

/-- C6: inserting a WellnessLog whose present `energy_level` or
`stress_level` lies outside 1..10, or whose present `mood` lies outside
the enumerated set, fails with `ValidationError`; the error result carries
no store, so nothing is written and no other row is modified. -/
theorem C6_wellness_validation (u : UserId) (r : WellnessLog) (s : Store)
    (hown : r.user_id = some u)
    (hbad : mood_ok r.mood = false ∨ level_ok r.energy_level = false ∨
      level_ok r.stress_level = false) :
    insert_wellness_log u r s = .error .ValidationError := by
  unfold insert_wellness_log
  rcases hbad with hb | hb | hb <;> simp [hown, hb]

/-- C6 witness: `energy_level = 11` together with `mood = "ecstatic"` is
rejected with `ValidationError` on the empty store. -/
theorem C6_wellness_validation_witness :
    insert_wellness_log 1
      (sampleWellnessLog 10 1 (some "ecstatic") (some 11) (some 5))
      Store.empty = .error .ValidationError :=
  C6_wellness_validation 1
    (sampleWellnessLog 10 1 (some "ecstatic") (some 11) (some 5))
    Store.empty rfl (Or.inl (by decide))

/-! ## C10: absent enumerated and ranged fields are accepted -/

/-- C10: a WellnessLog with NULL `mood`, `energy_level` and `stress_level`
inserts successfully, and an InterviewSession with NULL `interview_type`
inserts successfully: the CHECK constraints reject only present
out-of-range values, never absent ones. -/
theorem C10_optional_fields (u : UserId) (s : Store) (w : WellnessLog)
    (iv : InterviewSession) :
    (w.user_id = some u → w.mood = none → w.energy_level = none →
      w.stress_level = none →
      insert_wellness_log u w s =
        .ok { s with wellness_logs := w :: s.wellness_logs }) ∧
    (iv.user_id = some u → iv.interview_type = none →
      insert_interview_session u iv s =
        .ok { s with interview_sessions := iv :: s.interview_sessions }) := by
  constructor
  · intro h1 h2 h3 h4
    exact (insert_wellness_log_ok_iff u w s _).mpr
      ⟨h1, by rw [h2]; rfl, by rw [h3]; rfl, by rw [h4]; rfl, rfl⟩
  · intro h1 h2
    exact (insert_interview_session_ok_iff u iv s _).mpr
      ⟨h1, by rw [h2]; rfl, rfl⟩

/-- C10 witness: the all-NULL wellness log and the NULL-type interview
session are both accepted on the empty store. -/
theorem C10_optional_fields_witness :
    insert_wellness_log 1 (sampleWellnessLog 11 1 none none none)
        Store.empty =
      .ok { Store.empty with
        wellness_logs := [sampleWellnessLog 11 1 none none none] } ∧
    insert_interview_session 1 (sampleInterviewSession 12 1 none)
        Store.empty =
      .ok { Store.empty with
        interview_sessions := [sampleInterviewSession 12 1 none] } :=
  ⟨(C10_optional_fields 1 Store.empty (sampleWellnessLog 11 1 none none none)
      (sampleInterviewSession 12 1 none)).1 rfl rfl rfl rfl,
   (C10_optional_fields 1 Store.empty (sampleWellnessLog 11 1 none none none)
      (sampleInterviewSession 12 1 none)).2 rfl rfl⟩

/-! ## C2: funnel stats -/

theorem length_eq_sum_status (l : List Application)
    (h : ∀ r ∈ l, application_status_ok r.status = true) :
    l.length =
      (l.filter (fun r => r.status == some "applied")).length +
      (l.filter (fun r => r.status == some "interview")).length +
      (l.filter (fun r => r.status == some "offer")).length +
      (l.filter (fun r => r.status == some "rejected")).length +
      (l.filter (fun r => r.status == some "viewed")).length +
      (l.filter (fun r => r.status == none)).length := by
  induction l with
  | nil => simp
  | cons a t ih =>
    have ha := h a (List.mem_cons_self a t)
    have ht := ih (fun r hr => h r (List.mem_cons_of_mem a hr))
    unfold application_status_ok at ha
    match hst : a.status with
    | none =>
        simp [List.filter_cons, hst]
        omega
    | some st =>
        rw [hst] at ha
        simp only [Bool.or_eq_true, beq_iff_eq] at ha
        rcases ha with ((((h5 | h5) | h5) | h5) | h5) <;> subst h5 <;>
          (simp [List.filter_cons, hst]; omega)

/-- C2 counterexample: the `status` column is nullable and its CHECK
constraint passes on NULL, so tenant 1 can insert an application with NULL
status; on that store `get_application_stats` reports `total = 1` while
`applied + interview + offer + rejected + viewed = 0`, refuting
`total == applied + interview + offer + rejected + viewed`. -/
theorem C2_counterexample :
    insert_application 1 (sampleApplication 20 1 none) Store.empty =
      .ok c2Store ∧
    ¬((get_application_stats 1 c2Store).total =
        (get_application_stats 1 c2Store).applied +
        (get_application_stats 1 c2Store).interviews +
        (get_application_stats 1 c2Store).offers +
        (get_application_stats 1 c2Store).rejected +
        viewed_count 1 c2Store) := by
  constructor
  · rfl
  · decide

/-- C2 amended: each reported bucket of `get_application_stats` counts the
tenant's application rows with that status, `total` counts all of the
tenant's application rows, and — in every store satisfying the schema's
status CHECK — `total` equals the four buckets plus the `viewed` rows plus
the rows whose status is NULL (the nullable-status case the claim
omits). -/
theorem C2_funnel_stats (u : UserId) (s : Store)
    (hvalid : ∀ r ∈ s.applications, application_status_ok r.status = true) :
    (get_application_stats u s).total = (select_applications u s).length ∧
    (get_application_stats u s).applied =
      ((select_applications u s).filter
        (fun r => r.status == some "applied")).length ∧
    (get_application_stats u s).interviews =
      ((select_applications u s).filter
        (fun r => r.status == some "interview")).length ∧
    (get_application_stats u s).offers =
      ((select_applications u s).filter
        (fun r => r.status == some "offer")).length ∧
    (get_application_stats u s).rejected =
      ((select_applications u s).filter
        (fun r => r.status == some "rejected")).length ∧
    (get_application_stats u s).total =
      (get_application_stats u s).applied +
      (get_application_stats u s).interviews +
      (get_application_stats u s).offers +
      (get_application_stats u s).rejected +
      viewed_count u s + null_status_count u s := by
  refine ⟨rfl, rfl, rfl, rfl, rfl, ?_⟩
  have hsub : ∀ r ∈ select_applications u s,
      application_status_ok r.status = true := by
    intro r hr
    exact hvalid r (List.mem_filter.mp hr).1
  exact length_eq_sum_status (select_applications u s) hsub

/-- C2 witness: on a valid store of tenant 1 with statuses `applied`,
`viewed` and NULL, the amended reconciliation 3 = 1 + 0 + 0 + 0 + 1 + 1
holds. -/
theorem C2_funnel_stats_witness :
    (get_application_stats 1 c2ValidStore).total =
      (get_application_stats 1 c2ValidStore).applied +
      (get_application_stats 1 c2ValidStore).interviews +
      (get_application_stats 1 c2ValidStore).offers +
      (get_application_stats 1 c2ValidStore).rejected +
      viewed_count 1 c2ValidStore + null_status_count 1 c2ValidStore :=
  (C2_funnel_stats 1 c2ValidStore (by decide)).2.2.2.2.2

/-! ## C7: cascade delete -/

/-- C7: deleting a tenant removes every row whose `user_id` references the
tenant across all six entities, and keeps every row whose `user_id` does
not (in particular every other tenant's rows, unchanged). -/
theorem C7_cascade_delete (t : UserId) (s : Store) :
    (∀ r ∈ (delete_tenant t s).profiles, r.user_id ≠ some t) ∧
    (∀ r ∈ s.profiles, r.user_id ≠ some t → r ∈ (delete_tenant t s).profiles) ∧
    (∀ r ∈ (delete_tenant t s).applications, r.user_id ≠ some t) ∧
    (∀ r ∈ s.applications, r.user_id ≠ some t →
      r ∈ (delete_tenant t s).applications) ∧
    (∀ r ∈ (delete_tenant t s).learning_progress, r.user_id ≠ some t) ∧
    (∀ r ∈ s.learning_progress, r.user_id ≠ some t →
      r ∈ (delete_tenant t s).learning_progress) ∧
    (∀ r ∈ (delete_tenant t s).wellness_logs, r.user_id ≠ some t) ∧
    (∀ r ∈ s.wellness_logs, r.user_id ≠ some t →
      r ∈ (delete_tenant t s).wellness_logs) ∧
    (∀ r ∈ (delete_tenant t s).saved_jobs, r.user_id ≠ some t) ∧
    (∀ r ∈ s.saved_jobs, r.user_id ≠ some t →
      r ∈ (delete_tenant t s).saved_jobs) ∧
    (∀ r ∈ (delete_tenant t s).interview_sessions, r.user_id ≠ some t) ∧
    (∀ r ∈ s.interview_sessions, r.user_id ≠ some t →
      r ∈ (delete_tenant t s).interview_sessions) := by
  unfold delete_tenant
  refine ⟨?_, ?_, ?_, ?_, ?_, ?_, ?_, ?_, ?_, ?_, ?_, ?_⟩ <;>
    first
      | (intro r hr
         have hp := (List.mem_filter.mp hr).2
         simpa using hp)
      | (intro r hr hne
         exact List.mem_filter.mpr ⟨hr, by simpa using hne⟩)

/-- C7 witness: deleting tenant 1 from the two-tenant store removes tenant
1's application and keeps tenant 2's application. -/
theorem C7_cascade_delete_witness :
    sampleApplication 72 1 (some "applied") ∉
      (delete_tenant 1 twoTenantStore).applications ∧
    sampleApplication 73 2 (some "offer") ∈
      (delete_tenant 1 twoTenantStore).applications :=
  ⟨fun hmem =>
     (C7_cascade_delete 1 twoTenantStore).2.2.1
       (sampleApplication 72 1 (some "applied")) hmem (by decide),
   (C7_cascade_delete 1 twoTenantStore).2.2.2.1
     (sampleApplication 73 2 (some "offer")) (by decide) (by decide)⟩

/-! ## C1: tenant isolation on reads -/

/-- C1: every SELECT issued as tenant `t2` returns only rows owned by
`t2`; a row inserted by a different tenant `t1` changes no SELECT result
of `t2` (for every entity), so the foreign row is indistinguishable from a
non-existent row — in particular a point read of it as `t2` returns the
same `none` (NotFound) it returned before the row existed; reads never
produce a Forbidden outcome. -/
theorem C1_tenant_isolation (t1 t2 : UserId) (hne : t1 ≠ t2) (s : Store) :
    (∀ r ∈ select_profiles t2 s, r.user_id = some t2) ∧
    (∀ r ∈ select_applications t2 s, r.user_id = some t2) ∧
    (∀ r ∈ select_learning_progress t2 s, r.user_id = some t2) ∧
    (∀ r ∈ select_wellness_logs t2 s, r.user_id = some t2) ∧
    (∀ r ∈ select_saved_jobs t2 s, r.user_id = some t2) ∧
    (∀ r ∈ select_interview_sessions t2 s, r.user_id = some t2) ∧
    (∀ (r : Profile) (s2 : Store), insert_profile t1 r s = .ok s2 →
      select_profiles t2 s2 = select_profiles t2 s) ∧
    (∀ (r : Application) (s2 : Store), insert_application t1 r s = .ok s2 →
      select_applications t2 s2 = select_applications t2 s) ∧
    (∀ (r : LearningProgress) (s2 : Store),
      insert_learning_progress t1 r s = .ok s2 →
      select_learning_progress t2 s2 = select_learning_progress t2 s) ∧
    (∀ (r : WellnessLog) (s2 : Store), insert_wellness_log t1 r s = .ok s2 →
      select_wellness_logs t2 s2 = select_wellness_logs t2 s) ∧
    (∀ (r : SavedJob) (s2 : Store), insert_saved_job t1 r s = .ok s2 →
      select_saved_jobs t2 s2 = select_saved_jobs t2 s) ∧
    (∀ (r : InterviewSession) (s2 : Store),
      insert_interview_session t1 r s = .ok s2 →
      select_interview_sessions t2 s2 = select_interview_sessions t2 s) ∧
    (∀ (r : Application) (s2 : Store), insert_application t1 r s = .ok s2 →
      ∀ i, get_application t2 s2 i = get_application t2 s i) := by
  refine ⟨?_, ?_, ?_, ?_, ?_, ?_, ?_, ?_, ?_, ?_, ?_, ?_, ?_⟩
  · intro r hr
    simp only [select_profiles, List.mem_filter, beq_iff_eq] at hr
    exact hr.2
  · intro r hr
    simp only [select_applications, List.mem_filter, beq_iff_eq] at hr
    exact hr.2
  · intro r hr
    simp only [select_learning_progress, List.mem_filter, beq_iff_eq] at hr
    exact hr.2
  · intro r hr
    simp only [select_wellness_logs, List.mem_filter, beq_iff_eq] at hr
    exact hr.2
  · intro r hr
    simp only [select_saved_jobs, List.mem_filter, beq_iff_eq] at hr
    exact hr.2
  · intro r hr
    simp only [select_interview_sessions, List.mem_filter, beq_iff_eq] at hr
    exact hr.2
  · intro r s2 h
    rcases (insert_profile_ok_iff t1 r s s2).mp h with ⟨hu, -, rfl⟩
    simp [select_profiles, List.filter_cons, hu, hne]
  · intro r s2 h
    rcases (insert_application_ok_iff t1 r s s2).mp h with ⟨hu, -, rfl⟩
    simp [select_applications, List.filter_cons, hu, hne]
  · intro r s2 h
    rcases (insert_learning_progress_ok_iff t1 r s s2).mp h with ⟨hu, -, rfl⟩
    simp [select_learning_progress, List.filter_cons, hu, hne]
  · intro r s2 h
    rcases (insert_wellness_log_ok_iff t1 r s s2).mp h with ⟨hu, -, -, -, rfl⟩
    simp [select_wellness_logs, List.filter_cons, hu, hne]
  · intro r s2 h
    rcases (insert_saved_job_ok_iff t1 r s s2).mp h with ⟨hu, rfl⟩
    simp [select_saved_jobs, List.filter_cons, hu, hne]
  · intro r s2 h
    rcases (insert_interview_session_ok_iff t1 r s s2).mp h with ⟨hu, -, rfl⟩
    simp [select_interview_sessions, List.filter_cons, hu, hne]
  · intro r s2 h i
    rcases (insert_application_ok_iff t1 r s s2).mp h with ⟨hu, -, rfl⟩
    simp [get_application, select_applications, List.filter_cons, hu, hne]

/-- C1 witness: after tenant 1 inserts an application into the empty
store, tenant 2's SELECT still returns nothing and tenant 2's point read
of the new row is `none` (NotFound). -/
theorem C1_tenant_isolation_witness :
    select_applications 2
        { Store.empty with
          applications := [sampleApplication 50 1 (some "applied")] } =
      select_applications 2 Store.empty ∧
    get_application 2
        { Store.empty with
          applications := [sampleApplication 50 1 (some "applied")] } 50 =
      get_application 2 Store.empty 50 :=
  ⟨(C1_tenant_isolation 1 2 (by decide) Store.empty).2.2.2.2.2.2.2.1
     (sampleApplication 50 1 (some "applied")) _ (by decide),
   (C1_tenant_isolation 1 2 (by decide) Store.empty).2.2.2.2.2.2.2.2.2.2.2.2
     (sampleApplication 50 1 (some "applied")) _ (by decide) 50⟩

/-! ## C8: writes are gated on ownership -/

/-- C8: for every entity, an insert succeeds only when the new row's
`user_id` equals the calling tenant, and a mismatched owner is rejected by
the RLS WITH CHECK policy; for `saved_jobs` (no further constraint) a
matching owner is also sufficient.  Updates touch only the caller's own
rows — every row owned by anyone else survives unchanged — and the
`saved_jobs` DELETE removes only the caller's rows. -/
theorem C8_write_ownership (u : UserId) (s : Store) :
    (∀ (r : Profile) (s2 : Store),
      insert_profile u r s = .ok s2 → r.user_id = some u) ∧
    (∀ r : Profile, r.user_id ≠ some u →
      insert_profile u r s = .error .RlsViolation) ∧
    (∀ (r : Application) (s2 : Store),
      insert_application u r s = .ok s2 → r.user_id = some u) ∧
    (∀ r : Application, r.user_id ≠ some u →
      insert_application u r s = .error .RlsViolation) ∧
    (∀ (r : LearningProgress) (s2 : Store),
      insert_learning_progress u r s = .ok s2 → r.user_id = some u) ∧
    (∀ r : LearningProgress, r.user_id ≠ some u →
      insert_learning_progress u r s = .error .RlsViolation) ∧
    (∀ (r : WellnessLog) (s2 : Store),
      insert_wellness_log u r s = .ok s2 → r.user_id = some u) ∧
    (∀ r : WellnessLog, r.user_id ≠ some u →
      insert_wellness_log u r s = .error .RlsViolation) ∧
    (∀ (r : SavedJob) (s2 : Store),
      insert_saved_job u r s = .ok s2 → r.user_id = some u) ∧
    (∀ r : SavedJob, r.user_id ≠ some u →
      insert_saved_job u r s = .error .RlsViolation) ∧
    (∀ (r : InterviewSession) (s2 : Store),
      insert_interview_session u r s = .ok s2 → r.user_id = some u) ∧
    (∀ r : InterviewSession, r.user_id ≠ some u →
      insert_interview_session u r s = .error .RlsViolation) ∧
    (∀ r : SavedJob, r.user_id = some u →
      insert_saved_job u r s = .ok { s with saved_jobs := r :: s.saved_jobs }) ∧
    (∀ (sel : Profile → Bool) (f : Profile → Profile) (s2 : Store),
      update_profiles u sel f s = .ok s2 →
      (∀ r ∈ s.profiles, r.user_id ≠ some u → r ∈ s2.profiles) ∧
      (∀ r ∈ s2.profiles, r.user_id ≠ some u → r ∈ s.profiles)) ∧
    (∀ (sel : Application → Bool) (f : Application → Application) (s2 : Store),
      update_applications u sel f s = .ok s2 →
      (∀ r ∈ s.applications, r.user_id ≠ some u → r ∈ s2.applications) ∧
      (∀ r ∈ s2.applications, r.user_id ≠ some u → r ∈ s.applications)) ∧
    (∀ (sel : LearningProgress → Bool)
      (f : LearningProgress → LearningProgress) (s2 : Store),
      update_learning_progress u sel f s = .ok s2 →
      (∀ r ∈ s.learning_progress, r.user_id ≠ some u →
        r ∈ s2.learning_progress) ∧
      (∀ r ∈ s2.learning_progress, r.user_id ≠ some u →
        r ∈ s.learning_progress)) ∧
    (∀ sel : SavedJob → Bool,
      (∀ r ∈ s.saved_jobs, r.user_id ≠ some u →
        r ∈ (delete_saved_jobs u sel s).saved_jobs) ∧
      (∀ r ∈ (delete_saved_jobs u sel s).saved_jobs, r ∈ s.saved_jobs)) := by
  refine ⟨?_, ?_, ?_, ?_, ?_, ?_, ?_, ?_, ?_, ?_, ?_, ?_, ?_, ?_, ?_, ?_, ?_⟩
  · intro r s2 h
    exact ((insert_profile_ok_iff u r s s2).mp h).1
  · intro r hne
    have hb : (r.user_id == some u) = false := beq_eq_false_iff_ne.mpr hne
    simp [insert_profile, hb]
  · intro r s2 h
    exact ((insert_application_ok_iff u r s s2).mp h).1
  · intro r hne
    have hb : (r.user_id == some u) = false := beq_eq_false_iff_ne.mpr hne
    simp [insert_application, hb]
  · intro r s2 h
    exact ((insert_learning_progress_ok_iff u r s s2).mp h).1
  · intro r hne
    have hb : (r.user_id == some u) = false := beq_eq_false_iff_ne.mpr hne
    simp [insert_learning_progress, hb]
  · intro r s2 h
    exact ((insert_wellness_log_ok_iff u r s s2).mp h).1
  · intro r hne
    have hb : (r.user_id == some u) = false := beq_eq_false_iff_ne.mpr hne
    simp [insert_wellness_log, hb]
  · intro r s2 h
    exact ((insert_saved_job_ok_iff u r s s2).mp h).1
  · intro r hne
    have hb : (r.user_id == some u) = false := beq_eq_false_iff_ne.mpr hne
    simp [insert_saved_job, hb]
  · intro r s2 h
    exact ((insert_interview_session_ok_iff u r s s2).mp h).1
  · intro r hne
    have hb : (r.user_id == some u) = false := beq_eq_false_iff_ne.mpr hne
    simp [insert_interview_session, hb]
  · intro r hown
    exact (insert_saved_job_ok_iff u r s _).mpr ⟨hown, rfl⟩
  · intro sel f s2 h
    obtain ⟨hall, hmap, -⟩ := update_profiles_ok u sel f s s2 h
    constructor
    · intro r hr hne
      rw [hmap]
      exact mem_map_untarget s.profiles
        (fun x => x.user_id == some u && sel x) f r hr
        (by simp [beq_eq_false_iff_ne.mpr hne])
    · intro r hr hne
      rw [hmap] at hr
      exact mem_map_untarget_rev s.profiles
        (fun x => x.user_id == some u && sel x) f
        (fun x => x.user_id == some u)
        (fun x hx ht => beq_iff_eq.mpr (hall x hx ht)) r hr
        (beq_eq_false_iff_ne.mpr hne)
  · intro sel f s2 h
    obtain ⟨hall, hmap⟩ := update_applications_ok u sel f s s2 h
    constructor
    · intro r hr hne
      rw [hmap]
      exact mem_map_untarget s.applications
        (fun x => x.user_id == some u && sel x) f r hr
        (by simp [beq_eq_false_iff_ne.mpr hne])
    · intro r hr hne
      rw [hmap] at hr
      exact mem_map_untarget_rev s.applications
        (fun x => x.user_id == some u && sel x) f
        (fun x => x.user_id == some u)
        (fun x hx ht => beq_iff_eq.mpr (hall x hx ht)) r hr
        (beq_eq_false_iff_ne.mpr hne)
  · intro sel f s2 h
    obtain ⟨hall, hmap, -⟩ := update_learning_progress_ok u sel f s s2 h
    constructor
    · intro r hr hne
      rw [hmap]
      exact mem_map_untarget s.learning_progress
        (fun x => x.user_id == some u && sel x) f r hr
        (by simp [beq_eq_false_iff_ne.mpr hne])
    · intro r hr hne
      rw [hmap] at hr
      exact mem_map_untarget_rev s.learning_progress
        (fun x => x.user_id == some u && sel x) f
        (fun x => x.user_id == some u)
        (fun x hx ht => beq_iff_eq.mpr (hall x hx ht)) r hr
        (beq_eq_false_iff_ne.mpr hne)
  · intro sel
    constructor
    · intro r hr hne
      exact List.mem_filter.mpr ⟨hr, by simp [beq_eq_false_iff_ne.mpr hne]⟩
    · intro r hr
      exact (List.mem_filter.mp hr).1

/-- C8 witness: tenant 1 cannot insert a profile owned by tenant 2 (the
RLS policy rejects it), while tenant 2 inserting a saved job it owns
succeeds. -/
theorem C8_write_ownership_witness :
    insert_profile 1 (sampleProfile 60 2) Store.empty =
      .error .RlsViolation ∧
    insert_saved_job 2 (sampleSavedJob 61 2) Store.empty =
      .ok { Store.empty with saved_jobs := [sampleSavedJob 61 2] } :=
  ⟨(C8_write_ownership 1 Store.empty).2.1 (sampleProfile 60 2) (by decide),
   (C8_write_ownership 2 Store.empty).2.2.2.2.2.2.2.2.2.2.2.2.1
     (sampleSavedJob 61 2) rfl⟩

/-! ## C4: signup trigger creates exactly one profile -/

/-- C4: on a store with no profile for the new tenant, the signup trigger
inserts exactly one `profiles` row owned by the tenant, carrying the
tenant's email and the metadata name; afterwards any retried trigger
invocation fails with `ConflictError` instead of writing a second row, and
`UNIQUE(user_id)` is preserved by the trigger. -/
theorem C4_profile_lifecycle (u : AuthUser) (fresh : Nat) (now : Int)
    (s : Store) :
    (profile_count u.id s = 0 →
      ∃ s2, handle_new_user u fresh now s = .ok s2 ∧
        s2.profiles = handle_new_user_row u fresh now :: s.profiles ∧
        profile_count u.id s2 = 1 ∧
        (handle_new_user_row u fresh now).user_id = some u.id ∧
        (handle_new_user_row u fresh now).email = u.email ∧
        (handle_new_user_row u fresh now).name = u.raw_user_meta_data_name ∧
        ∀ (fresh2 : Nat) (now2 : Int),
          handle_new_user u fresh2 now2 s2 = .error .ConflictError) ∧
    (∀ s2 : Store, profile_unique s.profiles →
      handle_new_user u fresh now s = .ok s2 →
      profile_unique s2.profiles) := by
  constructor
  · intro hzero
    have hnil : s.profiles.filter (fun r => r.user_id == some u.id) = [] :=
      List.length_eq_zero.mp hzero
    have hany : s.profiles.any
        (profile_conflict (handle_new_user_row u fresh now)) = false := by
      cases ha : s.profiles.any
          (profile_conflict (handle_new_user_row u fresh now))
      · rfl
      · exfalso
        rcases List.any_eq_true.mp ha with ⟨x, hx, hconf⟩
        simp only [profile_conflict, handle_new_user_row, Bool.and_eq_true,
          Option.isSome_some, beq_iff_eq] at hconf
        have hxmem : x ∈ s.profiles.filter
            (fun r => r.user_id == some u.id) := by
          refine List.mem_filter.mpr ⟨hx, ?_⟩
          rw [← hconf.2]
          exact beq_self_eq_true (some u.id)
        rw [hnil] at hxmem
        cases hxmem
    refine ⟨{ s with
        profiles := handle_new_user_row u fresh now :: s.profiles },
      (handle_new_user_ok_iff u fresh now s _).mpr ⟨hany, rfl⟩,
      rfl, ?_, rfl, rfl, rfl, ?_⟩
    · simp only [profile_count, List.filter_cons]
      have hpred : ((handle_new_user_row u fresh now).user_id ==
          some u.id) = true := by simp [handle_new_user_row]
      rw [hpred]
      simp only [if_true, List.length_cons]
      simp only [profile_count] at hzero
      omega
    · intro fresh2 now2
      have hconf2 : profile_conflict (handle_new_user_row u fresh2 now2)
          (handle_new_user_row u fresh now) = true := by
        simp [profile_conflict, handle_new_user_row]
      simp [handle_new_user, List.any_cons, hconf2]
  · intro s2 huniq hok
    rcases (handle_new_user_ok_iff u fresh now s s2).mp hok with ⟨hany, rfl⟩
    unfold profile_unique at huniq ⊢
    rw [hasDupBy, hany, huniq]
    rfl

/-- C4 witness: on the empty store the trigger for tenant 1 creates exactly
one profile and a retried trigger invocation fails with `ConflictError`. -/
theorem C4_profile_lifecycle_witness :
    ∃ s2, handle_new_user (sampleAuthUser 1) 100 0 Store.empty = .ok s2 ∧
      s2.profiles = handle_new_user_row (sampleAuthUser 1) 100 0 ::
        Store.empty.profiles ∧
      profile_count 1 s2 = 1 ∧
      (handle_new_user_row (sampleAuthUser 1) 100 0).user_id = some 1 ∧
      (handle_new_user_row (sampleAuthUser 1) 100 0).email =
        (sampleAuthUser 1).email ∧
      (handle_new_user_row (sampleAuthUser 1) 100 0).name =
        (sampleAuthUser 1).raw_user_meta_data_name ∧
      ∀ (fresh2 : Nat) (now2 : Int),
        handle_new_user (sampleAuthUser 1) fresh2 now2 s2 =
          .error .ConflictError :=
  (C4_profile_lifecycle (sampleAuthUser 1) 100 0 Store.empty).1 rfl

/-! ## C5: milestone-per-tenant uniqueness -/

/-- C5: after a first learning-progress insert succeeds, a second insert
with the same owner and the same `milestone_id` is rejected with
`ConflictError` rather than creating a second row, and
`UNIQUE(user_id, milestone_id)` is preserved by insert, update and cascade
delete. -/
theorem C5_milestone_uniqueness (u t : UserId) (s s2 : Store)
    (r r2 : LearningProgress) (sel : LearningProgress → Bool)
    (f : LearningProgress → LearningProgress) :
    (insert_learning_progress u r s = .ok s2 →
      r2.user_id = r.user_id → r2.milestone_id = r.milestone_id →
      insert_learning_progress u r2 s2 = .error .ConflictError) ∧
    (lp_unique s.learning_progress →
      insert_learning_progress u r s = .ok s2 →
      lp_unique s2.learning_progress) ∧
    (update_learning_progress u sel f s = .ok s2 →
      lp_unique s2.learning_progress) ∧
    (lp_unique s.learning_progress →
      lp_unique ((delete_tenant t s).learning_progress)) := by
  refine ⟨?_, ?_, ?_, ?_⟩
  · intro hok h1 h2
    rcases (insert_learning_progress_ok_iff u r s s2).mp hok with
      ⟨hu, hany, rfl⟩
    have hb : (r2.user_id == some u) = true := by
      rw [h1, hu]; exact beq_self_eq_true (some u)
    have hc : lp_conflict r2 r = true := by
      simp [lp_conflict, h1, h2, hu]
    unfold insert_learning_progress
    rw [List.any_cons, hc]
    simp [hb]
  · intro huniq hok
    rcases (insert_learning_progress_ok_iff u r s s2).mp hok with
      ⟨-, hany, rfl⟩
    unfold lp_unique at huniq ⊢
    rw [hasDupBy, hany, huniq]
    rfl
  · intro hok
    exact (update_learning_progress_ok u sel f s s2 hok).2.2
  · intro huniq
    exact hasDupBy_filter lp_conflict _ s.learning_progress huniq

/-- C5 witness: tenant 1 records milestone `m1`, then a second insert for
the same milestone is rejected with `ConflictError`. -/
theorem C5_milestone_uniqueness_witness :
    insert_learning_progress 1 (sampleLearningProgress 91 1 "m1" 6)
      { Store.empty with
        learning_progress := [sampleLearningProgress 90 1 "m1" 5] } =
      .error .ConflictError :=
  (C5_milestone_uniqueness 1 1 Store.empty
      { Store.empty with
        learning_progress := [sampleLearningProgress 90 1 "m1" 5] }
      (sampleLearningProgress 90 1 "m1" 5)
      (sampleLearningProgress 91 1 "m1" 6)
      (fun _ => true) id).1 rfl rfl rfl

/-! ## C3 and C9: the learning-streak walk -/

theorem streak_loop_exact (rows : List LearningProgress) (u : UserId) :
    ∀ (N : Nat) (today : Int),
      (∀ k : Nat, k < N → has_activity rows u (today - k) = true) →
      has_activity rows u (today - N) = false →
      streak_loop rows u today = N := by
  intro N
  induction N with
  | zero =>
    intro today h hstop
    rw [streak_loop_eq]
    have h0 : has_activity rows u today = false := by simpa using hstop
    rw [h0]
    simp
  | succ n ih =>
    intro today h hstop
    have h0 : has_activity rows u today = true := by
      have := h 0 (Nat.succ_pos n)
      simpa using this
    rw [streak_loop_eq, if_pos h0]
    have hrec : streak_loop rows u (today - 1) = n := by
      apply ih
      · intro k hk
        have heq : today - 1 - (k : Int) = today - ((k + 1 : Nat) : Int) := by
          push_cast; ring
        rw [heq]
        exact h (k + 1) (by omega)
      · have heq : today - 1 - (n : Int) = today - ((n + 1 : Nat) : Int) := by
          push_cast; ring
        rw [heq]
        exact hstop
    omega

/-- C3: if the tenant has qualifying activity (a `completed = TRUE` row
whose `updated_at` truncates to the day) on each of the last `N` calendar
days and none on the day `N` days ago, `get_learning_streak` returns
exactly `N`; and whenever today has no qualifying activity it returns 0
regardless of earlier days — the walk never skips a gap day. -/
theorem C3_streak_walk (u : UserId) (today : Int) (s : Store) :
    (∀ N : Nat,
      (∀ k : Nat, k < N →
        has_activity s.learning_progress u (today - k) = true) →
      has_activity s.learning_progress u (today - N) = false →
      get_learning_streak u today s = N) ∧
    (has_activity s.learning_progress u today = false →
      get_learning_streak u today s = 0) := by
  constructor
  · intro N h hstop
    exact streak_loop_exact s.learning_progress u N today h hstop
  · intro h0
    unfold get_learning_streak
    rw [streak_loop_eq, h0]
    simp

/-- C3 witness: with completions on days 10, 9 and 8 the streak on day 10
is exactly 3, and on day 20 (no activity that day) it is 0. -/
theorem C3_streak_walk_witness :
    get_learning_streak 1 10 c3Store = 3 ∧
    get_learning_streak 1 20 c3Store = 0 :=
  ⟨(C3_streak_walk 1 10 c3Store).1 3 (by decide) (by decide),
   (C3_streak_walk 1 20 c3Store).2 (by decide)⟩

theorem streak_loop_le (rows : List LearningProgress) (u : UserId) :
    ∀ (n : Nat) (d : Int),
      (rows.filter (qualifiesLe u d)).length ≤ n →
      streak_loop rows u d ≤ (rows.filter (qualifiesLe u d)).length := by
  intro n
  induction n with
  | zero =>
    intro d hle
    rw [streak_loop_eq]
    cases hact : has_activity rows u d
    · simp
    · exfalso
      have hdec := has_activity_decrease rows u d hact
      omega
  | succ n ih =>
    intro d hle
    rw [streak_loop_eq]
    cases hact : has_activity rows u d
    · simp
    · rw [if_pos rfl]
      have hdec := has_activity_decrease rows u d hact
      have hrec := ih (d - 1) (by omega)
      omega

/-- C9: the backward day-by-day walk of `get_learning_streak` terminates
(`streak_loop` is a total function, by the decreasing measure of qualifying
rows dated at or before the current day), and the returned streak never
exceeds the number of that one tenant's qualifying learning-progress rows:
each counted day consumes at least one such row, so the loop runs at most
one iteration per row of the tenant, independent of the rest of the
dataset. -/
theorem C9_streak_bounded (u : UserId) (today : Int) (s : Store) :
    get_learning_streak u today s ≤ qualifying_count u s := by
  have h1 : streak_loop s.learning_progress u today ≤
      (s.learning_progress.filter (qualifiesLe u today)).length :=
    streak_loop_le s.learning_progress u
      (s.learning_progress.filter (qualifiesLe u today)).length today
      (le_refl _)
  have h2 : (s.learning_progress.filter (qualifiesLe u today)).length ≤
      qualifying_count u s := by
    unfold qualifying_count
    apply length_filter_mono
    intro x hx
    unfold qualifiesLe at hx
    simp only [Bool.and_eq_true] at hx ⊢
    obtain ⟨h12, hts⟩ := hx
    refine ⟨h12, ?_⟩
    match hu2 : x.updated_at with
    | none => rw [hu2] at hts; simp at hts
    | some ts => simp [hu2]
  exact le_trans h1 h2
